import Mathlib

/-!
Verification development for the somatic repository core: the persistent
client-side submission queue (enqueue, retry sweep, backoff, delivery
classification) and the multi-provider IP intelligence aggregator
(provider merge, risk scoring, result cache).

The queue model is a shallow embedding of the second revision of the
submission-queue module (constants MAX_QUEUE_SIZE, MAX_PAYLOAD_SIZE and
RETRYABLE_STATUS_CODES present).  Timestamps are integers (milliseconds),
monetary-style arithmetic (backoff, scores) is over the rationals, and the
random jitter draw of Math.random() is an explicit parameter in [0,1].
Network effects (fetch outcomes, provider responses) are explicit inputs.
-/

namespace Somatic

/-! ## String helpers (JS String.prototype.includes and truthiness) -/

/-- Does the pattern occur at the head of the character list? -/
def headMatches : List Char → List Char → Bool
  | [], _ => true
  | _ :: _, [] => false
  | a :: as, b :: bs => (a == b) && headMatches as bs

/-- Does the pattern occur contiguously anywhere in the list? -/
def subOf (pat : List Char) : List Char → Bool
  | [] => headMatches pat []
  | c :: t => headMatches pat (c :: t) || subOf pat t

/-- JS s.includes(pat). -/
def strIncludes (s pat : String) : Bool := subOf pat.toList s.toList

/-- JS a || b on strings: the empty string is falsy. -/
def jsOr (a b : String) : String := if a = "" then b else a

/-- JS s.split(sep) for a one-character separator. -/
def splitOnChar (sep : Char) : List Char → List (List Char)
  | [] => [[]]
  | c :: t =>
    if c == sep then [] :: splitOnChar sep t
    else
      match splitOnChar sep t with
      | h :: r => (c :: h) :: r
      | [] => [[c]]

def digitsVal : Nat → List Char → Nat
  | acc, [] => acc
  | acc, c :: t => digitsVal (acc * 10 + (c.toNat - 48)) t

/-- JS parseInt(s, 10) on an octet: value of the leading digit run, NaN
(none) when there is none. -/
def parseIntPre (l : List Char) : Option Nat :=
  let ds := l.takeWhile (fun c => c.isDigit)
  if ds.isEmpty then none else some (digitsVal 0 ds)

/-- JS s.toLowerCase() (ASCII as used here). -/
def toLowerStr (s : String) : String := String.mk (s.data.map Char.toLower)

/-! ## Queue constants (module-level constants of the source) -/

def MAX_RETRIES : Nat := 10
def MIN_BACKOFF : ℚ := 1000
def MAX_BACKOFF : ℚ := 300000
def MAX_QUEUE_SIZE : Nat := 100
def MAX_PAYLOAD_SIZE : Nat := 1024 * 1024
def maxAgeMs : ℤ := 7 * 24 * 60 * 60 * 1000

def RETRYABLE_STATUS_CODES : List Nat := [408, 429, 500, 502, 503, 504]

/-! ## Queue data model -/

inductive Status where
  | pending
  | processing
deriving DecidableEq, Repr

/-- One pending submission, as stored in the queue (payload kept abstract as
its serialized byte size, which is all the queue ever inspects). -/
structure Envelope where
  id : String
  createdAt : ℤ
  attempts : Nat
  status : Status
  lastAttempt : Option ℤ
  errorMsg : Option String
  payloadSize : Nat
deriving DecidableEq, Repr

/-- QueueStorage.remove: keep every item whose id differs. -/
def removeQ (i : String) (q : List Envelope) : List Envelope :=
  q.filter (fun e => e.id ≠ i)

/-- QueueStorage.update: rewrite the first item with the given id (findIndex
semantics); no-op when the id is absent. -/
def updateQ (i : String) (f : Envelope → Envelope) : List Envelope → List Envelope
  | [] => []
  | e :: rest => if e.id = i then f e :: rest else e :: updateQ i f rest

/-- QueueStorage.push: evict oldest entries on overflow, reject oversize
payloads with a thrown error (storage unchanged), else append. -/
def pushQ (item : Envelope) (q : List Envelope) : Except String (List Envelope) :=
  let q1 := if MAX_QUEUE_SIZE ≤ q.length then q.drop (q.length - MAX_QUEUE_SIZE + 1) else q
  if MAX_PAYLOAD_SIZE < item.payloadSize then
    Except.error "Payload size exceeds limit"
  else
    Except.ok (q1 ++ [item])

/-! ## Backoff scheduler -/

/-- The capped exponential base min(MAX_BACKOFF, 2^attempts * MIN_BACKOFF). -/
def backoffBase (attempts : Nat) : ℚ :=
  min MAX_BACKOFF ((2 : ℚ) ^ attempts * MIN_BACKOFF)

/-- calculateBackoff with the Math.random() draw made explicit. -/
def calculateBackoff (attempts : Nat) (rand : ℚ) : ℚ :=
  let base := backoffBase attempts
  let jitter := rand * (3 / 10) * base
  min MAX_BACKOFF (base + jitter)

/-! ## Delivery client -/

/-- A JS error value as inspected by the classifier: name, message and the
(optional) status property.  The Error thrown for a non-2xx response is a
plain Error and carries no status property. -/
structure JsError where
  name : String
  message : String
  status : Option Nat
deriving DecidableEq, Repr

/-- The error thrown on a non-ok fetch response: new Error with an
"HTTP <status>: <text>" message and no status field. -/
def httpError (status : Nat) (text : String) : JsError :=
  { name := "Error", message := "HTTP " ++ toString status ++ ": " ++ text, status := none }

/-- Outcome of the single fetch call inside sendToBackend. -/
inductive FetchOutcome where
  | response (status : Nat) (bodyText : String)
  | rejected (e : JsError)
deriving DecidableEq, Repr

/-- Result value of sendToBackend. -/
inductive SendResult where
  | success
  | failure (retryable : Bool) (error : JsError)
deriving DecidableEq, Repr

/-- Response.ok: status in the 2xx range. -/
def resOk (status : Nat) : Bool := 200 ≤ status && status ≤ 299

/-- The catch-block classification of sendToBackend. -/
def classifyError (e : JsError) (online : Bool) : SendResult :=
  let isTimeout := e.name == "AbortError"
  let isNetwork := !online || strIncludes e.message "NetworkError" ||
    strIncludes e.message "Failed to fetch"
  let isRetryableStatus :=
    match e.status with
    | some st => RETRYABLE_STATUS_CODES.contains st
    | none => false
  let isConnectionIssue := strIncludes e.message "ECONNREFUSED" ||
    strIncludes e.message "ENOTFOUND" || strIncludes e.message "getaddrinfo"
  SendResult.failure (isTimeout || isNetwork || isRetryableStatus || isConnectionIssue) e

/-- sendToBackend: a 2xx response succeeds; a non-2xx response throws a plain
Error (no status property) that the catch block classifies; a rejected fetch
is classified directly. -/
def sendToBackend (outcome : FetchOutcome) (online : Bool) : SendResult :=
  match outcome with
  | FetchOutcome.response st text =>
    if resOk st then SendResult.success else classifyError (httpError st text) online
  | FetchOutcome.rejected e => classifyError e online

/-! ## enqueueSubmission -/

inductive EnqueueOutcome where
  | sent
  | queued (err : Option JsError)
  | raised (err : String)
deriving DecidableEq, Repr

/-- enqueueSubmission given the result of the immediate send attempt.
Returns (caller-visible outcome, resulting store, whether the background
sweep process was started).  Note: the throw of a non-retryable error is
caught by the function's own catch block, which pushes the envelope and
returns a queued outcome. -/
def enqueueSubmission (env : Envelope) (res : SendResult) (store : List Envelope) :
    EnqueueOutcome × List Envelope × Bool :=
  match res with
  | SendResult.success => (EnqueueOutcome.sent, store, false)
  | SendResult.failure retryable err =>
    match pushQ env store with
    | Except.ok q1 =>
      if retryable then (EnqueueOutcome.queued none, q1, true)
      else (EnqueueOutcome.queued (some err), q1, true)
    | Except.error msg => (EnqueueOutcome.raised msg, store, false)

/-! ## processQueueOnce and cleanupQueue -/

/-- Is the item still inside its backoff window? -/
def notDue (item : Envelope) (now : ℤ) (backoff : ℚ) : Bool :=
  match item.lastAttempt with
  | some t => decide (((now - t : ℤ) : ℚ) < backoff)
  | none => false

/-- The store after one delivery attempt for one due item: mark processing,
stamp lastAttempt, increment attempts, then remove on success or
non-retryable failure, or revert to pending recording the error message on
retryable failure. -/
def attemptStore (now : ℤ) (deliver : Envelope → SendResult) (item : Envelope)
    (st : List Envelope) : List Envelope :=
  let st1 := updateQ item.id (fun e =>
    { e with status := Status.processing, lastAttempt := some now,
             attempts := item.attempts + 1 }) st
  match deliver item with
  | SendResult.success => removeQ item.id st1
  | SendResult.failure r err =>
    if r then
      updateQ item.id (fun e =>
        { e with status := Status.pending, errorMsg := some err.message }) st1
    else removeQ item.id st1

/-- The loop body of processQueueOnce, iterating the snapshot of the queue
while threading the live store; also returns the list of items for which a
delivery attempt was made. -/
def sweepGo (now : ℤ) (rand : Envelope → ℚ) (deliver : Envelope → SendResult) :
    List Envelope → List Envelope → List Envelope × List Envelope
  | [], st => (st, [])
  | item :: rest, st =>
    if item.status = Status.processing then
      sweepGo now rand deliver rest st
    else if MAX_RETRIES ≤ item.attempts then
      sweepGo now rand deliver rest (removeQ item.id st)
    else if notDue item now (calculateBackoff item.attempts (rand item)) then
      sweepGo now rand deliver rest st
    else
      ((sweepGo now rand deliver rest (attemptStore now deliver item st)).1,
        item :: (sweepGo now rand deliver rest (attemptStore now deliver item st)).2)

/-- processQueueOnce: no-op when offline or when the store is empty, else one
sweep over the snapshot.  Second component: the items attempted. -/
def processQueueOnce (online : Bool) (now : ℤ) (rand : Envelope → ℚ)
    (deliver : Envelope → SendResult) (store : List Envelope) :
    List Envelope × List Envelope :=
  if !online then (store, [])
  else if store.isEmpty then (store, [])
  else sweepGo now rand deliver store store

/-- cleanupQueue: drop items at least 7 days old; the store is rewritten only
when something was dropped (which does not change the resulting contents). -/
def cleanupQueue (now : ℤ) (q : List Envelope) : List Envelope :=
  let filtered := q.filter (fun e => now - e.createdAt < maxAgeMs)
  if filtered.length < q.length then filtered else q

/-! ## IP intelligence aggregator (server/utils/ipServices.js)

Provider HTTP calls are explicit inputs: an Option of the normalized
response data, none meaning the request threw.  Absent JS string fields are
the empty string (JS falsy), absent booleans are false.  Scores are
rationals. -/

def CLOUD_PROVIDERS : List String :=
  ["amazon", "aws", "google", "gcp", "ovh", "digitalocean", "azure", "microsoft",
   "linode", "vultr", "hetzner", "oracle", "alibaba", "upcloud", "scaleway",
   "contabo", "packet", "cloud", "data center", "datacenter"]

/-- isCloudProvider: fixed substring match on the lowercased ISP+ASN string. -/
def isCloudProvider (isp asn : String) : Bool :=
  let lower := toLowerStr (isp ++ " " ++ asn)
  CLOUD_PROVIDERS.any (fun p => strIncludes lower p)

/-- isPrivate: dotted-quad private ranges plus the loopback literal
(octets parsed with parseInt-style leading-digit parsing). -/
def isPrivate (ip : String) : Bool :=
  let parts := (splitOnChar '.' ip.data).map parseIntPre
  let p0 := parts.getD 0 none
  let p1 := parts.getD 1 none
  (p0 == some 10) ||
  (p0 == some 172 && (match p1 with | some v => decide (16 ≤ v ∧ v ≤ 31) | none => false)) ||
  (p0 == some 192 && p1 == some 168) ||
  (ip == "127.0.0.1")

structure GeoInfo where
  country : String := ""
  city : String := ""
  region : String := ""
  timezone : String := ""
  org : String := ""
deriving DecidableEq, Repr

/-- Normalized ipapi.co response fields used by the aggregator. -/
structure IpapiData where
  country_name : String := ""
  city : String := ""
  region : String := ""
  timezone : String := ""
  org : String := ""
  asn : String := ""
  proxy : Bool := false
  vpn : Bool := false
deriving DecidableEq, Repr

/-- Normalized ip-api.com response fields used by the aggregator. -/
structure IpApiComData where
  status : String := ""
  country : String := ""
  regionName : String := ""
  city : String := ""
  timezone : String := ""
  isp : String := ""
  org : String := ""
  asField : String := ""
  proxy : Bool := false
  hosting : Bool := false
deriving DecidableEq, Repr

/-- Normalized ipgeolocation.io response fields used by the aggregator. -/
structure IpgeoData where
  is_proxy : Bool := false
  country_name : String := ""
  isp : String := ""
  asn : String := ""
deriving DecidableEq, Repr

/-- Normalized freeipapi.com response fields used by the aggregator. -/
structure FreeipapiData where
  proxy : Bool := false
  countryName : String := ""
  isp : String := ""
  asn : String := ""
deriving DecidableEq, Repr

/-- One call to getIpInfo: the ip argument, the configured key, the relevant
request headers, and the outcome of each provider request (none = threw). -/
structure IpInfoInputs where
  ip : String := ""
  hasIpgeoKey : Bool := false
  uaHeader : String := ""
  webrtcHeader : String := ""
  cfConnectingIp : String := ""
  xRealIp : String := ""
  xForwardedFor : String := ""
  ipapi : Option IpapiData := none
  ipApiCom : Option IpApiComData := none
  ipgeo : Option IpgeoData := none
  freeipapi : Option FreeipapiData := none
deriving DecidableEq, Repr

/-- First element of the split x-forwarded-for header. -/
def xffFirst (s : String) : String := String.mk ((splitOnChar ',' s.data).headD [])

/-- realIp: cf-connecting-ip, x-real-ip, first x-forwarded-for entry, else
the ip argument (JS || chain, empty string falsy). -/
def realIpOf (inp : IpInfoInputs) : String :=
  jsOr inp.cfConnectingIp (jsOr inp.xRealIp (jsOr (xffFirst inp.xForwardedFor) inp.ip))

/-- The mutable locals of getIpInfo between the header checks and the final
score computation. -/
structure AggState where
  geoInfo : GeoInfo
  asn : String
  isp : String
  reputationScore : ℚ
  reasons : List String
  proxyVpn : Bool
  timezoneScore : ℚ
  asnScore : ℚ
  uaScore : ℚ
  latencyScore : ℚ
  webrtcScore : ℚ
deriving DecidableEq, Repr

/-- Locals after initialization and the private-IP check. -/
def initState (privateIp : Bool) : AggState :=
  { geoInfo := {}, asn := "", isp := "",
    reputationScore := if privateIp then 50 else 0,
    reasons := if privateIp then ["Private IP detected"] else [],
    proxyVpn := false, timezoneScore := 0, asnScore := 0,
    uaScore := 0, latencyScore := 0, webrtcScore := 0 }

/-- ua.includes checks of the suspicious User-Agent heuristic. -/
def uaSuspicious (ua : String) : Bool :=
  let l := toLowerStr ua
  strIncludes l "tor" || strIncludes l "wget" || strIncludes l "curl"

/-- The body of the successful-ipapi.co branch, including the User-Agent and
WebRTC heuristics that live inside the same try block. -/
def ipapiApply (inp : IpInfoInputs) (d : IpapiData) (st : AggState) : AggState :=
  let proxyVpn := d.proxy || d.vpn
  let st1 : AggState := { st with
    geoInfo := { country := d.country_name, city := d.city, region := d.region,
                 timezone := d.timezone, org := d.org },
    asn := d.asn, isp := d.org, proxyVpn := proxyVpn,
    reputationScore := if proxyVpn then 100 else 0 }
  let st2 := if isCloudProvider st1.isp st1.asn then
      { st1 with asnScore := 100, reputationScore := st1.reputationScore + 80,
                 reasons := st1.reasons ++ ["Cloud provider ASN/ISP"] }
    else st1
  let st3 := if proxyVpn then
      { st2 with reasons := st2.reasons ++ ["Proxy/VPN flag from ipapi.co"],
                 reputationScore := st2.reputationScore + 90 }
    else st2
  let st4 := if inp.uaHeader != "" && uaSuspicious inp.uaHeader then
      { st3 with uaScore := 100, reputationScore := st3.reputationScore + 70,
                 reasons := st3.reasons ++ ["Suspicious User-Agent detected"] }
    else st3
  if inp.webrtcHeader != "" && inp.webrtcHeader != inp.ip then
    { st4 with webrtcScore := 100, reputationScore := st4.reputationScore + 85,
               reasons := st4.reasons ++ ["WebRTC IP mismatch detected"] }
  else st4

/-- The body of the successful-ip-api.com fallback branch. -/
def ipApiComApply (d : IpApiComData) (st : AggState) : AggState :=
  if d.status = "success" then
    let st1 : AggState := { st with
      geoInfo := { country := d.country, city := d.city, region := d.regionName,
                   timezone := d.timezone, org := d.org },
      asn := d.asField, isp := d.isp }
    if d.proxy || d.hosting then
      { st1 with proxyVpn := true, reputationScore := st1.reputationScore + 75,
                 reasons := st1.reasons ++ ["Proxy/VPN/Hosting detected by ip-api.com"] }
    else st1
  else st

/-- Stage 1: ipapi.co, with ip-api.com consulted from its catch block. -/
def stage1 (inp : IpInfoInputs) (st : AggState) : AggState :=
  match inp.ipapi with
  | some d => ipapiApply inp d st
  | none =>
    let st1 : AggState := { st with reasons := st.reasons ++ ["ipapi.co failed"] }
    match inp.ipApiCom with
    | some d => ipApiComApply d st1
    | none => { st1 with reasons := st1.reasons ++ ["ip-api.com failed"] }

/-- The body of the successful-ipgeolocation.io branch. -/
def ipgeoApply (d : IpgeoData) (st : AggState) : AggState :=
  let st1 := if d.is_proxy then
      { st with proxyVpn := true, reputationScore := 100,
                reasons := st.reasons ++ ["Proxy/VPN flag from ipgeolocation.io"] }
    else st
  let st2 := if isCloudProvider d.isp d.asn then
      { st1 with asnScore := 100,
                 reasons := st1.reasons ++ ["Cloud provider ASN/ISP (ipgeolocation.io)"] }
    else st1
  { st2 with
    geoInfo := { st2.geoInfo with country := jsOr d.country_name st2.geoInfo.country },
    asn := jsOr d.asn st2.asn, isp := jsOr d.isp st2.isp }

/-- Stage 2: ipgeolocation.io, only when a key is configured. -/
def stage2 (inp : IpInfoInputs) (st : AggState) : AggState :=
  if inp.hasIpgeoKey then
    match inp.ipgeo with
    | some d => ipgeoApply d st
    | none => { st with reasons := st.reasons ++ ["ipgeolocation.io failed"] }
  else st

/-- The body of the successful-freeipapi.com branch. -/
def freeipapiApply (d : FreeipapiData) (st : AggState) : AggState :=
  let st1 := if d.proxy then
      { st with proxyVpn := true, reputationScore := 100,
                reasons := st.reasons ++ ["Proxy/VPN flag from freeipapi.com"] }
    else st
  let st2 := if isCloudProvider d.isp d.asn then
      { st1 with asnScore := 100,
                 reasons := st1.reasons ++ ["Cloud provider ASN/ISP (freeipapi.com)"] }
    else st1
  { st2 with
    geoInfo := { st2.geoInfo with country := jsOr d.countryName st2.geoInfo.country },
    asn := jsOr d.asn st2.asn, isp := jsOr d.isp st2.isp }

/-- Stage 3: freeipapi.com, unconditional. -/
def stage3 (inp : IpInfoInputs) (st : AggState) : AggState :=
  match inp.freeipapi with
  | some d => freeipapiApply d st
  | none => { st with reasons := st.reasons ++ ["freeipapi.com failed"] }

/-- The value cached and returned by getIpInfo. -/
structure IPInfoResult where
  score : ℚ
  reasons : List String
  vpnDetected : Bool
  isProxy : Bool
  isSuspicious : Bool
  detectedIp : String
  originalIp : String
  isPrivateIp : Bool
  geoInfo : GeoInfo
  asn : String
  isp : String
  reputationScore : ℚ
  asnScore : ℚ
  timezoneScore : ℚ
  webrtcScore : ℚ
  latencyScore : ℚ
  uaScore : ℚ
deriving DecidableEq, Repr

/-- Normalization of the reputation score and the weighted composite score,
then the final result record. -/
def finalizeResult (inp : IpInfoInputs) (st : AggState) : IPInfoResult :=
  let realIp := realIpOf inp
  let rep := min 100 st.reputationScore
  let score := rep * (40 / 100) + st.asnScore * (20 / 100) +
    st.timezoneScore * (10 / 100) + st.webrtcScore * (15 / 100) +
    st.latencyScore * (5 / 100) + st.uaScore * (10 / 100)
  { score := score, reasons := st.reasons,
    vpnDetected := decide (score > 70), isProxy := st.proxyVpn,
    isSuspicious := decide (score > 50),
    detectedIp := realIp, originalIp := inp.ip, isPrivateIp := isPrivate realIp,
    geoInfo := st.geoInfo, asn := st.asn, isp := st.isp,
    reputationScore := rep, asnScore := st.asnScore,
    timezoneScore := st.timezoneScore, webrtcScore := st.webrtcScore,
    latencyScore := st.latencyScore, uaScore := st.uaScore }

/-- The full uncached pipeline of getIpInfo. -/
def getIpInfoCore (inp : IpInfoInputs) : IPInfoResult :=
  finalizeResult inp
    (stage3 inp (stage2 inp (stage1 inp (initState (isPrivate (realIpOf inp))))))

/-! ## Result cache (NodeCache with stdTTL 600 seconds) -/

def CACHE_TTL : ℤ := 600

/-- Cache contents: key, store time (seconds) and stored value; newest entry
for a key first. -/
def IpCache := List (String × ℤ × IPInfoResult)

def cacheGet (c : IpCache) (ip : String) (now : ℤ) : Option IPInfoResult :=
  match c.find? (fun e => e.1 == ip) with
  | some (_, t, v) => if now ≤ t + CACHE_TTL then some v else none
  | none => none

def cacheSet (c : IpCache) (ip : String) (now : ℤ) (v : IPInfoResult) : IpCache :=
  (ip, now, v) :: c

/-- Number of provider HTTP requests one uncached aggregation performs:
ipapi.co always, ip-api.com only from the ipapi.co catch block,
ipgeolocation.io only with a key, freeipapi.com always. -/
def providersInvoked (inp : IpInfoInputs) : Nat :=
  1 + (if inp.ipapi = none then 1 else 0) + (if inp.hasIpgeoKey then 1 else 0) + 1

/-- getIpInfo with the cache explicit: returns the result, the updated cache
and the number of provider requests made by this call. -/
def getIpInfo (inp : IpInfoInputs) (c : IpCache) (now : ℤ) :
    IPInfoResult × IpCache × Nat :=
  match cacheGet c inp.ip now with
  | some v => (v, c, 0)
  | none =>
    let r := getIpInfoCore inp
    (r, cacheSet c inp.ip now r, providersInvoked inp)

/-! ## Concrete instances used by counterexamples and witnesses -/

/-- A small well-formed envelope. -/
def envC1 : Envelope :=
  { id := "q1", createdAt := 0, attempts := 0, status := Status.pending,
    lastAttempt := none, errorMsg := none, payloadSize := 10 }

/-- A stored envelope stuck in processing state. -/
def procC9 : Envelope :=
  { id := "p0", createdAt := 0, attempts := 3, status := Status.processing,
    lastAttempt := none, errorMsg := none, payloadSize := 10 }

/-- A generic pending envelope used to fill the store to capacity. -/
def fillC9 : Envelope :=
  { id := "f", createdAt := 1, attempts := 0, status := Status.pending,
    lastAttempt := none, errorMsg := none, payloadSize := 10 }

/-- A new envelope being pushed onto the full store. -/
def newC9 : Envelope :=
  { id := "n", createdAt := 2, attempts := 0, status := Status.pending,
    lastAttempt := none, errorMsg := none, payloadSize := 10 }

/-- A store at MAX_QUEUE_SIZE whose oldest entry is the processing envelope. -/
def qC9 : List Envelope := procC9 :: List.replicate 99 fillC9

/-- Private source IP whose primary provider lookup succeeds with no flags
(empty identity fields, no proxy/vpn flag) and all other providers throw. -/
def inC6 : IpInfoInputs := { ip := "192.168.1.1", ipapi := some {} }

/-- Private source IP whose primary provider lookup throws. -/
def inC6w : IpInfoInputs := { ip := "192.168.1.1" }

/-- Two providers contribute: ipapi.co succeeds and populates country, asn
and isp; the keyed ipgeolocation.io lookup then returns different non-empty
values for the same fields. -/
def inC7 : IpInfoInputs :=
  { ip := "1.2.3.4", hasIpgeoKey := true,
    ipapi := some { country_name := "France", city := "Paris", region := "IDF",
                    timezone := "Europe/Paris", org := "Orange", asn := "AS1" },
    ipgeo := some { country_name := "Germany", isp := "Telekom", asn := "AS2" } }

/-- A minimal aggregation input for the cache witness. -/
def inC8 : IpInfoInputs := { ip := "9.9.9.9" }

/-- A throwing primary provider together with a suspicious User-Agent and a
mismatching WebRTC header. -/
def inC10 : IpInfoInputs :=
  { ip := "8.8.8.8", uaHeader := "curl/8.0", webrtcHeader := "1.2.3.4" }

/-- A retryable delivery error. -/
def errC3 : JsError := { name := "Error", message := "boom", status := none }

/-- The stored state of envC1 after one retryable failure in a sweep at
time 0. -/
def envC3r : Envelope :=
  { id := "q1", createdAt := 0, attempts := 1, status := Status.pending,
    lastAttempt := some 0, errorMsg := some "boom", payloadSize := 10 }

/-! ## Backoff scheduler lemmas -/

lemma backoffBase_nonneg (n : Nat) : 0 ≤ backoffBase n := by
  unfold backoffBase MAX_BACKOFF MIN_BACKOFF
  refine le_min (by norm_num) (by positivity)

lemma backoffBase_le_succ (n : Nat) : backoffBase n ≤ backoffBase (n + 1) := by
  unfold backoffBase
  refine min_le_min le_rfl ?_
  have h2 : (2 : ℚ) ^ n ≤ 2 ^ (n + 1) := by
    refine pow_le_pow_right₀ (by norm_num) (Nat.le_succ n)
  unfold MIN_BACKOFF
  nlinarith

lemma calculateBackoff_le_succ (n : Nat) {r : ℚ} (h0 : 0 ≤ r) :
    calculateBackoff n r ≤ calculateBackoff (n + 1) r := by
  unfold calculateBackoff
  refine min_le_min le_rfl (add_le_add (backoffBase_le_succ n) ?_)
  exact mul_le_mul_of_nonneg_left (backoffBase_le_succ n) (by positivity)

/-- C4: calculateBackoff(n) equals the capped exponential base
min(MAX_BACKOFF, 2^n * MIN_BACKOFF) plus a non-negative jitter of at most 30
percent of that base, re-capped at MAX_BACKOFF; it never exceeds MAX_BACKOFF,
is pointwise non-decreasing in the attempt count for every fixed jitter draw,
and therefore every empirical sum (hence mean) of backoff values over the
same jitter draws is non-decreasing in the attempt count. -/
theorem claim_C4_backoff (n : Nat) (r : ℚ) (h0 : 0 ≤ r) (h1 : r ≤ 1) :
    calculateBackoff n r = min MAX_BACKOFF (backoffBase n + r * (3 / 10) * backoffBase n)
    ∧ 0 ≤ r * (3 / 10) * backoffBase n
    ∧ r * (3 / 10) * backoffBase n ≤ (3 / 10) * backoffBase n
    ∧ calculateBackoff n r ≤ MAX_BACKOFF
    ∧ calculateBackoff n r ≤ calculateBackoff (n + 1) r
    ∧ ∀ (m : Nat) (draws : List ℚ), (∀ x ∈ draws, 0 ≤ x) →
        (draws.map (calculateBackoff m)).sum ≤ (draws.map (calculateBackoff (m + 1))).sum := by
  refine ⟨rfl, ?_, ?_, min_le_left _ _, calculateBackoff_le_succ n h0, ?_⟩
  · have hb := backoffBase_nonneg n
    positivity
  · have hb := backoffBase_nonneg n
    nlinarith
  · intro m draws hd
    exact List.sum_le_sum (fun x hx => calculateBackoff_le_succ m (hd x hx))

/-- Witness for C4 at attempts = 3 and jitter draw 0. -/
theorem claim_C4_backoff_witness : calculateBackoff 3 0 ≤ MAX_BACKOFF :=
  (claim_C4_backoff 3 0 (le_refl 0) zero_le_one).2.2.2.1

/-- C1 (code bug evaluation): when the immediate send attempt fails
non-retryably (here an HTTP 400 response while online), enqueueSubmission
does not raise: the throw of result.error is caught by its own catch block,
which persists the envelope and starts the background sweep, returning a
queued outcome. -/
theorem claim_C1_enqueue_nonretryable_queues :
    enqueueSubmission envC1 (sendToBackend (FetchOutcome.response 400 "") true) [] =
      (EnqueueOutcome.queued (some (httpError 400 "")), [envC1], true) := by decide

/-- C2 (code bug evaluation): for every status in RETRYABLE_STATUS_CODES, a
response with that status (online, empty body) is classified non-retryable,
because the thrown plain Error carries no status property and so the
RETRYABLE_STATUS_CODES membership test never fires for HTTP responses. -/
theorem claim_C2_retryable_statuses_classified_nonretryable :
    sendToBackend (FetchOutcome.response 408 "") true = SendResult.failure false (httpError 408 "")
    ∧ sendToBackend (FetchOutcome.response 429 "") true = SendResult.failure false (httpError 429 "")
    ∧ sendToBackend (FetchOutcome.response 500 "") true = SendResult.failure false (httpError 500 "")
    ∧ sendToBackend (FetchOutcome.response 502 "") true = SendResult.failure false (httpError 502 "")
    ∧ sendToBackend (FetchOutcome.response 503 "") true = SendResult.failure false (httpError 503 "")
    ∧ sendToBackend (FetchOutcome.response 504 "") true = SendResult.failure false (httpError 504 "") := by
  decide

/-! ## Queue storage lemmas -/

lemma mem_removeQ {e : Envelope} {i : String} {q : List Envelope} :
    e ∈ removeQ i q ↔ e ∈ q ∧ e.id ≠ i := by
  simp [removeQ, List.mem_filter]

lemma mem_of_mem_removeQ {e : Envelope} {i : String} {q : List Envelope}
    (h : e ∈ removeQ i q) : e ∈ q := (mem_removeQ.mp h).1

lemma mem_updateQ {i : String} {f : Envelope → Envelope} {e : Envelope}
    {q : List Envelope} (h : e ∈ updateQ i f q) :
    e ∈ q ∨ ∃ e₀, e₀ ∈ q ∧ e₀.id = i ∧ e = f e₀ := by
  induction q with
  | nil => simp [updateQ] at h
  | cons x rest ih =>
    by_cases hx : x.id = i
    · simp only [updateQ, if_pos hx, List.mem_cons] at h
      rcases h with h | h
      · exact Or.inr ⟨x, List.mem_cons_self x rest, hx, h⟩
      · exact Or.inl (List.mem_cons_of_mem x h)
    · simp only [updateQ, if_neg hx, List.mem_cons] at h
      rcases h with h | h
      · exact Or.inl (h ▸ List.mem_cons_self x rest)
      · rcases ih h with h2 | ⟨e₀, he₀, hid, heq⟩
        · exact Or.inl (List.mem_cons_of_mem x h2)
        · exact Or.inr ⟨e₀, List.mem_cons_of_mem x he₀, hid, heq⟩

lemma mem_updateQ_of_ne {i : String} {f : Envelope → Envelope} {e : Envelope}
    {q : List Envelope} (he : e ∈ q) (hne : e.id ≠ i) : e ∈ updateQ i f q := by
  induction q with
  | nil => simp at he
  | cons x rest ih =>
    rcases List.mem_cons.mp he with rfl | hr
    · simp only [updateQ, if_neg hne]
      exact List.mem_cons_self _ _
    · by_cases hx : x.id = i
      · simp only [updateQ, if_pos hx]
        exact List.mem_cons_of_mem _ hr
      · simp only [updateQ, if_neg hx]
        exact List.mem_cons_of_mem _ (ih hr)

/-- No envelope in the store carries the given id. -/
def noId (i : String) (q : List Envelope) : Prop := ∀ e ∈ q, e.id ≠ i

lemma noId_removeQ_self (i : String) (q : List Envelope) : noId i (removeQ i q) :=
  fun _ he => (mem_removeQ.mp he).2

lemma noId_removeQ {i j : String} {q : List Envelope} (h : noId i q) :
    noId i (removeQ j q) :=
  fun e he => h e (mem_of_mem_removeQ he)

lemma noId_updateQ {i j : String} {f : Envelope → Envelope} {q : List Envelope}
    (h : noId i q) (hf : ∀ e, (f e).id = e.id) : noId i (updateQ j f q) := by
  intro e he
  rcases mem_updateQ he with h2 | ⟨e₀, he₀, _, rfl⟩
  · exact h e h2
  · rw [hf]
    exact h e₀ he₀

lemma pushQ_mem {item : Envelope} {q q1 : List Envelope}
    (hp : pushQ item q = Except.ok q1) : ∀ e ∈ q1, e ∈ q ∨ e = item := by
  simp only [pushQ] at hp
  by_cases hps : MAX_PAYLOAD_SIZE < item.payloadSize
  · rw [if_pos hps] at hp
    cases hp
  · rw [if_neg hps, Except.ok.injEq] at hp
    subst hp
    intro e he
    rcases List.mem_append.mp he with h | h
    · by_cases hsz : MAX_QUEUE_SIZE ≤ q.length
      · rw [if_pos hsz] at h
        exact Or.inl (List.drop_subset _ _ h)
      · rw [if_neg hsz] at h
        exact Or.inl h
    · exact Or.inr (List.mem_singleton.mp h)

/-! ## Sweep lemmas -/

lemma attemptStore_attempts_bound {now : ℤ} {deliver : Envelope → SendResult}
    {item : Envelope} {st : List Envelope} (hlt : item.attempts < MAX_RETRIES)
    (hst : ∀ e ∈ st, e.attempts ≤ MAX_RETRIES) :
    ∀ e ∈ attemptStore now deliver item st, e.attempts ≤ MAX_RETRIES := by
  have h1 : ∀ e ∈ updateQ item.id (fun e =>
      { e with status := Status.processing, lastAttempt := some now,
               attempts := item.attempts + 1 }) st, e.attempts ≤ MAX_RETRIES := by
    intro e he
    rcases mem_updateQ he with h | ⟨e₀, he₀, _, rfl⟩
    · exact hst e h
    · exact Nat.succ_le_of_lt hlt
  intro e he
  simp only [attemptStore] at he
  rcases hdel : deliver item with _ | ⟨r, err⟩ <;> rw [hdel] at he <;> dsimp only at he
  · exact h1 e (mem_of_mem_removeQ he)
  · split_ifs at he
    · rcases mem_updateQ he with h | ⟨e₀, he₀, _, rfl⟩
      · exact h1 e h
      · exact h1 e₀ he₀
    · exact h1 e (mem_of_mem_removeQ he)

lemma attemptStore_noId {now : ℤ} {deliver : Envelope → SendResult}
    {item : Envelope} {st : List Envelope} {i : String} (h : noId i st) :
    noId i (attemptStore now deliver item st) := by
  have h1 := noId_updateQ (j := item.id) (f := fun e =>
    { e with status := Status.processing, lastAttempt := some now,
             attempts := item.attempts + 1 }) h (fun e => rfl)
  simp only [attemptStore]
  rcases deliver item with _ | ⟨r, err⟩ <;> dsimp only
  · exact noId_removeQ h1
  · split_ifs
    · exact noId_updateQ h1 (fun e => rfl)
    · exact noId_removeQ h1

lemma mem_attemptStore_of_ne {now : ℤ} {deliver : Envelope → SendResult}
    {item : Envelope} {st : List Envelope} {e : Envelope} (he : e ∈ st)
    (hne : e.id ≠ item.id) : e ∈ attemptStore now deliver item st := by
  have h1 : e ∈ updateQ item.id (fun e =>
      { e with status := Status.processing, lastAttempt := some now,
               attempts := item.attempts + 1 }) st := mem_updateQ_of_ne he hne
  simp only [attemptStore]
  rcases deliver item with _ | ⟨r, err⟩ <;> dsimp only
  · exact mem_removeQ.mpr ⟨h1, hne⟩
  · split_ifs
    · exact mem_updateQ_of_ne h1 hne
    · exact mem_removeQ.mpr ⟨h1, hne⟩

lemma sweepGo_attempts_bound {now : ℤ} {rand : Envelope → ℚ}
    {deliver : Envelope → SendResult} :
    ∀ (items st : List Envelope), (∀ e ∈ st, e.attempts ≤ MAX_RETRIES) →
      ∀ e ∈ (sweepGo now rand deliver items st).1, e.attempts ≤ MAX_RETRIES := by
  intro items
  induction items with
  | nil => intro st hst; exact hst
  | cons item rest ih =>
    intro st hst
    rw [sweepGo]
    split_ifs with h1 h2 h3
    · exact ih st hst
    · exact ih _ (fun e he => hst e (mem_of_mem_removeQ he))
    · exact ih st hst
    · exact ih _ (attemptStore_attempts_bound (Nat.not_le.mp h2) hst)

lemma sweepGo_attempted {now : ℤ} {rand : Envelope → ℚ}
    {deliver : Envelope → SendResult} :
    ∀ (items st : List Envelope), ∀ x ∈ (sweepGo now rand deliver items st).2,
      x ∈ items ∧ x.status ≠ Status.processing ∧ x.attempts < MAX_RETRIES := by
  intro items
  induction items with
  | nil => intro st x hx; cases hx
  | cons item rest ih =>
    intro st x hx
    rw [sweepGo] at hx
    split_ifs at hx with h1 h2 h3
    · obtain ⟨hm, hs, ha⟩ := ih st x hx
      exact ⟨List.mem_cons_of_mem _ hm, hs, ha⟩
    · obtain ⟨hm, hs, ha⟩ := ih _ x hx
      exact ⟨List.mem_cons_of_mem _ hm, hs, ha⟩
    · obtain ⟨hm, hs, ha⟩ := ih st x hx
      exact ⟨List.mem_cons_of_mem _ hm, hs, ha⟩
    · rcases List.mem_cons.mp hx with rfl | hx2
      · exact ⟨List.mem_cons_self _ _, h1, Nat.not_le.mp h2⟩
      · obtain ⟨hm, hs, ha⟩ := ih _ x hx2
        exact ⟨List.mem_cons_of_mem _ hm, hs, ha⟩

lemma sweepGo_noId {now : ℤ} {rand : Envelope → ℚ}
    {deliver : Envelope → SendResult} {i : String} :
    ∀ (items st : List Envelope), noId i st →
      noId i (sweepGo now rand deliver items st).1 := by
  intro items
  induction items with
  | nil => intro st hst; exact hst
  | cons item rest ih =>
    intro st hst
    rw [sweepGo]
    split_ifs with h1 h2 h3
    · exact ih st hst
    · exact ih _ (noId_removeQ hst)
    · exact ih st hst
    · exact ih _ (attemptStore_noId hst)

lemma sweepGo_removes_maxed {now : ℤ} {rand : Envelope → ℚ}
    {deliver : Envelope → SendResult} :
    ∀ (items st : List Envelope) (e : Envelope), e ∈ items →
      e.status = Status.pending → MAX_RETRIES ≤ e.attempts →
      noId e.id (sweepGo now rand deliver items st).1 := by
  intro items
  induction items with
  | nil => intro st e he; cases he
  | cons item rest ih =>
    intro st e he hpend hmax
    rcases List.mem_cons.mp he with rfl | he2
    · rw [sweepGo]
      rw [if_neg (by rw [hpend]; exact fun h => Status.noConfusion h), if_pos hmax]
      exact sweepGo_noId rest _ (noId_removeQ_self e.id st)
    · rw [sweepGo]
      split_ifs with h1 h2 h3
      · exact ih st e he2 hpend hmax
      · exact ih _ e he2 hpend hmax
      · exact ih st e he2 hpend hmax
      · exact ih _ e he2 hpend hmax

lemma sweepGo_keeps_processing {now : ℤ} {rand : Envelope → ℚ}
    {deliver : Envelope → SendResult} :
    ∀ (items st : List Envelope) (e : Envelope), e ∈ st →
      e.status = Status.processing →
      (∀ i ∈ items, i.id = e.id → i.status = Status.processing) →
      e ∈ (sweepGo now rand deliver items st).1 := by
  intro items
  induction items with
  | nil => intro st e he _ _; exact he
  | cons item rest ih =>
    intro st e he hproc hitems
    have hrest : ∀ i ∈ rest, i.id = e.id → i.status = Status.processing :=
      fun i hi => hitems i (List.mem_cons_of_mem _ hi)
    rw [sweepGo]
    split_ifs with h1 h2 h3
    · exact ih st e he hproc hrest
    · have hne : e.id ≠ item.id := by
        intro hid
        exact h1 (hitems item (List.mem_cons_self _ _) hid.symm)
      exact ih _ e (mem_removeQ.mpr ⟨he, hne⟩) hproc hrest
    · exact ih st e he hproc hrest
    · have hne : e.id ≠ item.id := by
        intro hid
        exact h1 (hitems item (List.mem_cons_self _ _) hid.symm)
      exact ih _ e (mem_attemptStore_of_ne he hne) hproc hrest

/-! ## Cleanup lemmas -/

lemma filter_length_eq {α : Type} (p : α → Bool) :
    ∀ l : List α, (l.filter p).length = l.length → l.filter p = l := by
  intro l
  induction l with
  | nil => intro _; rfl
  | cons x t ih =>
    intro h
    by_cases hx : p x
    · rw [List.filter_cons_of_pos hx] at h ⊢
      simp only [List.length_cons] at h
      rw [ih (by omega)]
    · exfalso
      rw [List.filter_cons_of_neg hx] at h
      simp only [List.length_cons] at h
      have := List.length_filter_le p t
      omega

lemma mem_cleanupQueue {e : Envelope} {now : ℤ} {q : List Envelope} :
    e ∈ cleanupQueue now q ↔ e ∈ q ∧ now - e.createdAt < maxAgeMs := by
  simp only [cleanupQueue]
  split_ifs with hl
  · simp [List.mem_filter]
  · have hle := List.length_filter_le (fun e => decide (now - e.createdAt < maxAgeMs)) q
    have heq : q.filter (fun e => decide (now - e.createdAt < maxAgeMs)) = q :=
      filter_length_eq _ q (by omega)
    constructor
    · intro he
      have he2 : e ∈ q.filter (fun e => decide (now - e.createdAt < maxAgeMs)) := by
        rw [heq]; exact he
      have := List.mem_filter.mp he2
      simpa using this
    · exact fun h => h.1

lemma processQueueOnce_eq (online : Bool) (now : ℤ) (rand : Envelope → ℚ)
    (deliver : Envelope → SendResult) (q : List Envelope) :
    processQueueOnce online now rand deliver q =
      if online = true ∧ q ≠ [] then sweepGo now rand deliver q q else (q, []) := by
  unfold processQueueOnce
  cases online
  · simp
  · cases q <;> simp

/-- C3: every envelope in the store after a sweep keeps attempts ≤
MAX_RETRIES; a pending envelope that has reached MAX_RETRIES is never
attempted by the sweep and no envelope with its id survives the sweep; every
attempted envelope had attempts < MAX_RETRIES (so its counter is incremented
to at most the bound); and enqueueSubmission (which creates envelopes with
attempts = 0) also preserves the bound. -/
theorem claim_C3_attempts_bounded (online : Bool) (now : ℤ) (rand : Envelope → ℚ)
    (deliver : Envelope → SendResult) (q : List Envelope)
    (h : ∀ e ∈ q, e.attempts ≤ MAX_RETRIES) :
    (∀ e ∈ (processQueueOnce online now rand deliver q).1, e.attempts ≤ MAX_RETRIES)
    ∧ (∀ e ∈ q, e.status = Status.pending → MAX_RETRIES ≤ e.attempts →
        e ∉ (processQueueOnce online now rand deliver q).2
        ∧ (online = true →
            ∀ e2 ∈ (processQueueOnce online now rand deliver q).1, e2.id ≠ e.id))
    ∧ (∀ x ∈ (processQueueOnce online now rand deliver q).2, x.attempts < MAX_RETRIES)
    ∧ (∀ (env : Envelope) (res : SendResult), env.attempts = 0 →
        ∀ e ∈ (enqueueSubmission env res q).2.1, e.attempts ≤ MAX_RETRIES) := by
  refine ⟨?_, ?_, ?_, ?_⟩
  · rw [processQueueOnce_eq]
    split_ifs with hc
    · exact sweepGo_attempts_bound q q h
    · exact h
  · intro e he hpend hmax
    rw [processQueueOnce_eq]
    split_ifs with hc
    · refine ⟨?_, fun _ => ?_⟩
      · intro hmem
        have := (sweepGo_attempted q q e hmem).2.2
        omega
      · exact fun e2 he2 => sweepGo_removes_maxed q q e he hpend hmax e2 he2
    · refine ⟨?_, ?_⟩
      · intro hmem
        simp at hmem
      · intro ho e2 he2
        exfalso
        rcases not_and_or.mp hc with hno | hq
        · exact hno ho
        · rw [not_not] at hq
          subst hq
          cases he
  · rw [processQueueOnce_eq]
    split_ifs with hc
    · exact fun x hx => (sweepGo_attempted q q x hx).2.2
    · intro x hx
      simp at hx
  · intro env res henv e he
    rcases res with _ | ⟨r, err⟩
    · simp only [enqueueSubmission] at he
      exact h e he
    · rcases hp : pushQ env q with msg | q1 <;>
        simp only [enqueueSubmission, hp] at he
      · exact h e he
      · split_ifs at he <;>
        · rcases pushQ_mem hp e he with h2 | rfl
          · exact h e h2
          · rw [henv]
            exact Nat.zero_le _
/-- Witness for C3: one sweep with a retryable failure leaves the envelope
stored with its attempts counter within the bound. -/
theorem claim_C3_attempts_bounded_witness : envC3r.attempts ≤ MAX_RETRIES :=
  (claim_C3_attempts_bounded true 0 (fun _ => 0)
    (fun _ => SendResult.failure true errC3) [envC1] (by decide)).1 envC3r (by decide)

/-- C9 counterexample: with the store at MAX_QUEUE_SIZE and its oldest entry
a processing envelope far younger than 7 days, pushing one new envelope
evicts the processing envelope, so an operation other than the periodic age
cleanup removes it. -/
theorem claim_C9_counterexample :
    procC9 ∈ qC9 ∧ procC9.status = Status.processing
    ∧ (0 : ℤ) - procC9.createdAt < maxAgeMs
    ∧ (pushQ newC9 qC9).toOption = some (List.replicate 99 fillC9 ++ [newC9])
    ∧ procC9 ∉ List.replicate 99 fillC9 ++ [newC9] := by decide

/-- C9 (amended): an envelope stored as processing is never attempted by
processQueueOnce and is still present, unchanged, after the sweep (with
store ids unique); cleanupQueue keeps an envelope exactly when it is younger
than 7 days; however a push onto a full store may also evict such an
envelope, so the age cleanup is not the only removing operation. -/
theorem claim_C9_processing_skipped (online : Bool) (now : ℤ) (rand : Envelope → ℚ)
    (deliver : Envelope → SendResult) (q : List Envelope) (e : Envelope)
    (hN : (q.map Envelope.id).Nodup) (he : e ∈ q)
    (hp : e.status = Status.processing) :
    e ∈ (processQueueOnce online now rand deliver q).1
    ∧ e ∉ (processQueueOnce online now rand deliver q).2
    ∧ ∀ (now2 : ℤ) (q2 : List Envelope),
        e ∈ cleanupQueue now2 q2 ↔ e ∈ q2 ∧ now2 - e.createdAt < maxAgeMs := by
  have hinj := List.inj_on_of_nodup_map hN
  refine ⟨?_, ?_, fun now2 q2 => mem_cleanupQueue⟩
  · rw [processQueueOnce_eq]
    split_ifs with hc
    · refine sweepGo_keeps_processing q q e he hp (fun i hi hid => ?_)
      have := hinj hi he hid
      rw [this]
      exact hp
    · exact he
  · rw [processQueueOnce_eq]
    split_ifs with hc
    · intro hmem
      exact (sweepGo_attempted q q e hmem).2.1 hp
    · intro hmem
      simp at hmem

/-- Witness for C9 on a singleton store holding one processing envelope. -/
theorem claim_C9_processing_skipped_witness :
    procC9 ∈ (processQueueOnce true 5 (fun _ => 0) (fun _ => SendResult.success)
      [procC9]).1 :=
  (claim_C9_processing_skipped true 5 (fun _ => 0) (fun _ => SendResult.success)
    [procC9] procC9 (by decide) (by decide) (by decide)).1

/-! ## Aggregator state invariants -/

/-- Range facts about the mutable sub-scores that hold at every point of the
aggregation: reputation is non-negative, the asn, webrtc and ua sub-scores
are 0 or 100, and the timezone and latency sub-scores are never assigned. -/
def SubOk (st : AggState) : Prop :=
  0 ≤ st.reputationScore ∧ (st.asnScore = 0 ∨ st.asnScore = 100)
  ∧ st.timezoneScore = 0 ∧ st.latencyScore = 0
  ∧ (st.webrtcScore = 0 ∨ st.webrtcScore = 100)
  ∧ (st.uaScore = 0 ∨ st.uaScore = 100)

lemma subOk_initState (b : Bool) : SubOk (initState b) := by
  unfold SubOk initState
  split_ifs <;> norm_num

lemma subOk_ipapiApply (inp : IpInfoInputs) (d : IpapiData) (st : AggState)
    (h : SubOk st) : SubOk (ipapiApply inp d st) := by
  obtain ⟨h1, h2, h3, h4, h5, h6⟩ := h
  simp only [ipapiApply, SubOk]
  split_ifs <;>
    exact ⟨by norm_num, by first | exact h2 | norm_num, h3, h4,
      by first | exact h5 | norm_num, by first | exact h6 | norm_num⟩

lemma subOk_ipApiComApply (d : IpApiComData) (st : AggState) (h : SubOk st) :
    SubOk (ipApiComApply d st) := by
  obtain ⟨h1, h2, h3, h4, h5, h6⟩ := h
  simp only [ipApiComApply, SubOk]
  split_ifs <;>
    exact ⟨by first
      | exact h1
      | exact le_trans h1 (le_add_of_nonneg_right (by norm_num)), h2, h3, h4, h5, h6⟩

lemma subOk_stage1 (inp : IpInfoInputs) (st : AggState) (h : SubOk st) :
    SubOk (stage1 inp st) := by
  obtain ⟨h1, h2, h3, h4, h5, h6⟩ := h
  unfold stage1
  rcases inp.ipapi with _ | d
  · rcases inp.ipApiCom with _ | d2
    · exact ⟨h1, h2, h3, h4, h5, h6⟩
    · exact subOk_ipApiComApply d2 _ ⟨h1, h2, h3, h4, h5, h6⟩
  · exact subOk_ipapiApply inp d st ⟨h1, h2, h3, h4, h5, h6⟩

lemma subOk_ipgeoApply (d : IpgeoData) (st : AggState) (h : SubOk st) :
    SubOk (ipgeoApply d st) := by
  obtain ⟨h1, h2, h3, h4, h5, h6⟩ := h
  simp only [ipgeoApply, SubOk]
  split_ifs <;>
    exact ⟨by first | exact h1 | norm_num, by first | exact h2 | norm_num, h3, h4, h5, h6⟩

lemma subOk_stage2 (inp : IpInfoInputs) (st : AggState) (h : SubOk st) :
    SubOk (stage2 inp st) := by
  unfold stage2
  split_ifs
  · rcases inp.ipgeo with _ | d
    · exact h
    · exact subOk_ipgeoApply d st h
  · exact h

lemma subOk_freeipapiApply (d : FreeipapiData) (st : AggState) (h : SubOk st) :
    SubOk (freeipapiApply d st) := by
  obtain ⟨h1, h2, h3, h4, h5, h6⟩ := h
  simp only [freeipapiApply, SubOk]
  split_ifs <;>
    exact ⟨by first | exact h1 | norm_num, by first | exact h2 | norm_num, h3, h4, h5, h6⟩

lemma subOk_stage3 (inp : IpInfoInputs) (st : AggState) (h : SubOk st) :
    SubOk (stage3 inp st) := by
  unfold stage3
  rcases inp.freeipapi with _ | d
  · exact h
  · exact subOk_freeipapiApply d st h

lemma subOk_pipeline (inp : IpInfoInputs) :
    SubOk (stage3 inp (stage2 inp (stage1 inp (initState (isPrivate (realIpOf inp)))))) :=
  subOk_stage3 inp _ (subOk_stage2 inp _ (subOk_stage1 inp _
    (subOk_initState (isPrivate (realIpOf inp)))))

/-! ## Reasons monotonicity and provenance -/

lemma reasons_mono_ipapiApply (inp : IpInfoInputs) (d : IpapiData) (st : AggState)
    {s : String} (hs : s ∈ st.reasons) : s ∈ (ipapiApply inp d st).reasons := by
  simp only [ipapiApply]
  split_ifs <;> simp [List.mem_append, hs]

lemma reasons_mono_stage1 (inp : IpInfoInputs) (st : AggState) {s : String}
    (hs : s ∈ st.reasons) : s ∈ (stage1 inp st).reasons := by
  unfold stage1
  rcases inp.ipapi with _ | d
  · rcases inp.ipApiCom with _ | d2
    · simp [List.mem_append, hs]
    · simp only [ipApiComApply]
      split_ifs <;> simp [List.mem_append, hs]
  · exact reasons_mono_ipapiApply inp d st hs

lemma reasons_mono_stage2 (inp : IpInfoInputs) (st : AggState) {s : String}
    (hs : s ∈ st.reasons) : s ∈ (stage2 inp st).reasons := by
  unfold stage2
  split_ifs
  · rcases inp.ipgeo with _ | d
    · simp [List.mem_append, hs]
    · simp only [ipgeoApply]
      split_ifs <;> simp [List.mem_append, hs]
  · exact hs

lemma reasons_mono_stage3 (inp : IpInfoInputs) (st : AggState) {s : String}
    (hs : s ∈ st.reasons) : s ∈ (stage3 inp st).reasons := by
  unfold stage3
  rcases inp.freeipapi with _ | d
  · simp [List.mem_append, hs]
  · simp only [freeipapiApply]
    split_ifs <;> simp [List.mem_append, hs]

lemma reasons_stage1_none (inp : IpInfoInputs) (st : AggState)
    (hip : inp.ipapi = none) : ∀ s ∈ (stage1 inp st).reasons,
      s ∈ st.reasons ∨ s = "ipapi.co failed" ∨ s = "ip-api.com failed"
      ∨ s = "Proxy/VPN/Hosting detected by ip-api.com" := by
  unfold stage1
  rw [hip]
  rcases inp.ipApiCom with _ | d2
  · intro s hs
    simp only [List.mem_append, List.mem_singleton] at hs
    tauto
  · simp only [ipApiComApply]
    split_ifs <;> intro s hs <;>
      simp only [List.mem_append, List.mem_singleton] at hs <;> tauto

lemma reasons_stage2_new (inp : IpInfoInputs) (st : AggState) :
    ∀ s ∈ (stage2 inp st).reasons,
      s ∈ st.reasons ∨ s = "ipgeolocation.io failed"
      ∨ s = "Proxy/VPN flag from ipgeolocation.io"
      ∨ s = "Cloud provider ASN/ISP (ipgeolocation.io)" := by
  unfold stage2
  split_ifs
  · rcases inp.ipgeo with _ | d
    · intro s hs
      simp only [List.mem_append, List.mem_singleton] at hs
      tauto
    · simp only [ipgeoApply]
      split_ifs <;> intro s hs <;>
        first
          | exact Or.inl hs
          | (simp only [List.mem_append, List.mem_singleton] at hs; tauto)
  · intro s hs
    exact Or.inl hs

lemma reasons_stage3_new (inp : IpInfoInputs) (st : AggState) :
    ∀ s ∈ (stage3 inp st).reasons,
      s ∈ st.reasons ∨ s = "freeipapi.com failed"
      ∨ s = "Proxy/VPN flag from freeipapi.com"
      ∨ s = "Cloud provider ASN/ISP (freeipapi.com)" := by
  unfold stage3
  rcases inp.freeipapi with _ | d
  · intro s hs
    simp only [List.mem_append, List.mem_singleton] at hs
    tauto
  · simp only [freeipapiApply]
    split_ifs <;> intro s hs <;>
      first
        | exact Or.inl hs
        | (simp only [List.mem_append, List.mem_singleton] at hs; tauto)

/-! ## Score-field preservation across stages -/

lemma scores_stage1_none (inp : IpInfoInputs) (st : AggState)
    (hip : inp.ipapi = none) :
    (stage1 inp st).uaScore = st.uaScore ∧ (stage1 inp st).webrtcScore = st.webrtcScore := by
  unfold stage1
  rw [hip]
  rcases inp.ipApiCom with _ | d2
  · exact ⟨rfl, rfl⟩
  · simp only [ipApiComApply]
    split_ifs <;> exact ⟨rfl, rfl⟩

lemma scores_stage2 (inp : IpInfoInputs) (st : AggState) :
    (stage2 inp st).uaScore = st.uaScore ∧ (stage2 inp st).webrtcScore = st.webrtcScore := by
  unfold stage2
  split_ifs
  · rcases inp.ipgeo with _ | d
    · exact ⟨rfl, rfl⟩
    · simp only [ipgeoApply]
      split_ifs <;> exact ⟨rfl, rfl⟩
  · exact ⟨rfl, rfl⟩

lemma scores_stage3 (inp : IpInfoInputs) (st : AggState) :
    (stage3 inp st).uaScore = st.uaScore ∧ (stage3 inp st).webrtcScore = st.webrtcScore := by
  unfold stage3
  rcases inp.freeipapi with _ | d
  · exact ⟨rfl, rfl⟩
  · simp only [freeipapiApply]
    split_ifs <;> exact ⟨rfl, rfl⟩

/-! ## Reputation growth lemmas -/

lemma rep_stage1_none (inp : IpInfoInputs) (st : AggState) (hip : inp.ipapi = none) :
    st.reputationScore ≤ (stage1 inp st).reputationScore := by
  unfold stage1
  rw [hip]
  rcases inp.ipApiCom with _ | d2
  · exact le_refl _
  · simp only [ipApiComApply]
    split_ifs <;> simp

lemma rep_stage2_ge (inp : IpInfoInputs) (st : AggState)
    (h : 50 ≤ st.reputationScore) : 50 ≤ (stage2 inp st).reputationScore := by
  unfold stage2
  split_ifs
  · rcases inp.ipgeo with _ | d
    · exact h
    · simp only [ipgeoApply]
      split_ifs <;> first | exact h | norm_num
  · exact h

lemma rep_stage3_ge (inp : IpInfoInputs) (st : AggState)
    (h : 50 ≤ st.reputationScore) : 50 ≤ (stage3 inp st).reputationScore := by
  unfold stage3
  rcases inp.freeipapi with _ | d
  · exact h
  · simp only [freeipapiApply]
    split_ifs <;> first | exact h | norm_num

lemma reasons_initState (b : Bool) :
    ∀ s ∈ (initState b).reasons, s = "Private IP detected" := by
  unfold initState
  split_ifs <;> simp

lemma clampId {x : ℚ} (h0 : 0 ≤ x) (h1 : x ≤ 100) : max 0 (min 100 x) = x := by
  rw [min_eq_right h1, max_eq_right h0]

/-- C5: the composite score of getIpInfo is the fixed weighted sum of the
sub-scores; since each sub-score always lies in [0,100], the pre-clamping
and the re-clamping of the spec are identities and the composite lies in
[0,100]; the weights sum to 1; vpnDetected holds exactly when the composite
exceeds 70 and isSuspicious exactly when it exceeds 50. -/
theorem claim_C5_score (inp : IpInfoInputs) :
    (getIpInfoCore inp).score
      = max 0 (min 100 (max 0 (min 100 (getIpInfoCore inp).reputationScore) * (40 / 100)
        + max 0 (min 100 (getIpInfoCore inp).asnScore) * (20 / 100)
        + max 0 (min 100 (getIpInfoCore inp).timezoneScore) * (10 / 100)
        + max 0 (min 100 (getIpInfoCore inp).webrtcScore) * (15 / 100)
        + max 0 (min 100 (getIpInfoCore inp).latencyScore) * (5 / 100)
        + max 0 (min 100 (getIpInfoCore inp).uaScore) * (10 / 100)))
    ∧ 0 ≤ (getIpInfoCore inp).score ∧ (getIpInfoCore inp).score ≤ 100
    ∧ ((40 : ℚ) / 100 + 20 / 100 + 10 / 100 + 15 / 100 + 5 / 100 + 10 / 100 = 1)
    ∧ ((getIpInfoCore inp).vpnDetected = true ↔ 70 < (getIpInfoCore inp).score)
    ∧ ((getIpInfoCore inp).isSuspicious = true ↔ 50 < (getIpInfoCore inp).score) := by
  obtain ⟨h1, h2, h3, h4, h5, h6⟩ := subOk_pipeline inp
  set st := stage3 inp (stage2 inp (stage1 inp (initState (isPrivate (realIpOf inp))))) with hst
  have hg : getIpInfoCore inp = finalizeResult inp st := rfl
  rw [hg]
  simp only [finalizeResult]
  have hrep0 : 0 ≤ min 100 st.reputationScore := le_min (by norm_num) h1
  have hrep1 : min 100 st.reputationScore ≤ 100 := min_le_left _ _
  have hasn : 0 ≤ st.asnScore ∧ st.asnScore ≤ 100 := by
    rcases h2 with h | h <;> rw [h] <;> norm_num
  have hweb : 0 ≤ st.webrtcScore ∧ st.webrtcScore ≤ 100 := by
    rcases h5 with h | h <;> rw [h] <;> norm_num
  have hua : 0 ≤ st.uaScore ∧ st.uaScore ≤ 100 := by
    rcases h6 with h | h <;> rw [h] <;> norm_num
  refine ⟨?_, by linarith, by linarith, by norm_num, ?_, ?_⟩
  · rw [clampId hrep0 hrep1]
    rw [clampId hasn.1 hasn.2, clampId hweb.1 hweb.2, clampId hua.1 hua.2, h3, h4]
    rw [show max 0 (min 100 (0 : ℚ)) = 0 by norm_num]
    rw [clampId (by linarith) (by linarith)]
  · simp
  · simp

/-- C6 counterexample: for the private source IP 192.168.1.1 whose primary
provider lookup succeeds without any proxy/VPN flag (and all other providers
throw), the reasons list does contain the private-IP reason but the private
reputation contribution has been overwritten by the successful primary
lookup, so the composite score is 0, not strictly positive: the contribution
is not independent of provider outcomes. -/
theorem claim_C6_counterexample :
    isPrivate (realIpOf inC6) = true
    ∧ "Private IP detected" ∈ (getIpInfoCore inC6).reasons
    ∧ ¬ 0 < (getIpInfoCore inC6).score := by
  refine ⟨by decide, by decide, ?_⟩
  have hst : stage3 inC6 (stage2 inC6 (stage1 inC6 (initState (isPrivate (realIpOf inC6))))) =
      { geoInfo := {}, asn := "", isp := "", reputationScore := 0,
        reasons := ["Private IP detected", "freeipapi.com failed"], proxyVpn := false,
        timezoneScore := 0, asnScore := 0, uaScore := 0, latencyScore := 0,
        webrtcScore := 0 } := by decide
  rw [getIpInfoCore, hst]
  norm_num [finalizeResult]

/-- C6 (amended): for every private/loopback source IP the reasons list
contains the private-IP reason, and whenever the primary provider lookup
throws the fixed +50 reputation contribution survives, making the composite
score strictly positive; a successful primary lookup, however, resets the
reputation score and can drop the contribution (see the counterexample). -/
theorem claim_C6_private_ip (inp : IpInfoInputs)
    (hpriv : isPrivate (realIpOf inp) = true) :
    "Private IP detected" ∈ (getIpInfoCore inp).reasons
    ∧ (inp.ipapi = none → 0 < (getIpInfoCore inp).score) := by
  have hg : getIpInfoCore inp =
      finalizeResult inp (stage3 inp (stage2 inp (stage1 inp (initState true)))) := by
    rw [getIpInfoCore, hpriv]
  constructor
  · rw [hg]
    simp only [finalizeResult]
    apply reasons_mono_stage3
    apply reasons_mono_stage2
    apply reasons_mono_stage1
    simp [initState]
  · intro hip
    have hsub := subOk_pipeline inp
    rw [hpriv] at hsub
    obtain ⟨h1, h2, h3, h4, h5, h6⟩ := hsub
    set st := stage3 inp (stage2 inp (stage1 inp (initState true))) with hstdef
    have hrep : (50 : ℚ) ≤ st.reputationScore := by
      rw [hstdef]
      refine rep_stage3_ge inp _ (rep_stage2_ge inp _ ?_)
      have hmono := rep_stage1_none inp (initState true) hip
      have hinit : (initState true).reputationScore = 50 := rfl
      linarith
    have hmin : (50 : ℚ) ≤ min 100 st.reputationScore := le_min (by norm_num) hrep
    have hasn : 0 ≤ st.asnScore := by rcases h2 with h | h <;> simp [h]
    have hweb : 0 ≤ st.webrtcScore := by rcases h5 with h | h <;> simp [h]
    have hua : 0 ≤ st.uaScore := by rcases h6 with h | h <;> simp [h]
    rw [hg]
    simp only [finalizeResult]
    linarith

/-- Witness for C6 (amended) at 192.168.1.1 with all providers throwing. -/
theorem claim_C6_private_ip_witness :
    "Private IP detected" ∈ (getIpInfoCore inC6w).reasons :=
  (claim_C6_private_ip inC6w (by decide)).1

/-- C7 counterexample: ipapi.co populates country France, asn AS1 and isp
Orange; the later keyed provider returns non-empty values Germany, AS2 and
Telekom and these overwrite the already-populated fields, so identity
fields are not merged first-writer-wins. -/
theorem claim_C7_counterexample :
    (stage1 inC7 (initState (isPrivate (realIpOf inC7)))).geoInfo.country = "France"
    ∧ (stage1 inC7 (initState (isPrivate (realIpOf inC7)))).asn = "AS1"
    ∧ (getIpInfoCore inC7).geoInfo.country = "Germany"
    ∧ (getIpInfoCore inC7).asn = "AS2"
    ∧ (getIpInfoCore inC7).isp = "Telekom" := by decide

/-- C7 (amended): the fallback providers merge identity fields
last-non-empty-writer-wins: a non-empty later value overwrites even a
populated field, while an empty later value keeps the earlier one; region,
city and timezone are never touched by the fallback merges; the proxy flag
is merged by union. -/
theorem claim_C7_merge_last_nonempty_wins :
    (∀ (d : IpgeoData) (st : AggState),
      (ipgeoApply d st).geoInfo.country = jsOr d.country_name st.geoInfo.country
      ∧ (ipgeoApply d st).asn = jsOr d.asn st.asn
      ∧ (ipgeoApply d st).isp = jsOr d.isp st.isp
      ∧ (ipgeoApply d st).geoInfo.region = st.geoInfo.region
      ∧ (ipgeoApply d st).geoInfo.city = st.geoInfo.city
      ∧ (ipgeoApply d st).geoInfo.timezone = st.geoInfo.timezone
      ∧ (ipgeoApply d st).proxyVpn = (st.proxyVpn || d.is_proxy))
    ∧ (∀ (d : FreeipapiData) (st : AggState),
      (freeipapiApply d st).geoInfo.country = jsOr d.countryName st.geoInfo.country
      ∧ (freeipapiApply d st).asn = jsOr d.asn st.asn
      ∧ (freeipapiApply d st).isp = jsOr d.isp st.isp
      ∧ (freeipapiApply d st).geoInfo.region = st.geoInfo.region
      ∧ (freeipapiApply d st).geoInfo.city = st.geoInfo.city
      ∧ (freeipapiApply d st).geoInfo.timezone = st.geoInfo.timezone
      ∧ (freeipapiApply d st).proxyVpn = (st.proxyVpn || d.proxy)) := by
  constructor <;> intro d st
  · simp only [ipgeoApply]
    split_ifs <;> refine ⟨rfl, rfl, rfl, rfl, rfl, rfl, ?_⟩ <;> simp [*]
  · simp only [freeipapiApply]
    split_ifs <;> refine ⟨rfl, rfl, rfl, rfl, rfl, rfl, ?_⟩ <;> simp [*]

/-! ## Cache lemmas -/

lemma cacheGet_set_hit {c : IpCache} {ip : String} {now1 now2 : ℤ}
    {v : IPInfoResult} (h : now2 ≤ now1 + CACHE_TTL) :
    cacheGet (cacheSet c ip now1 v) ip now2 = some v := by
  unfold cacheGet cacheSet
  rw [List.find?_cons_of_pos _ (by simp)]
  simp [h]

lemma cacheGet_set_expired {c : IpCache} {ip : String} {now1 now3 : ℤ}
    {v : IPInfoResult} (h : now1 + CACHE_TTL < now3) :
    cacheGet (cacheSet c ip now1 v) ip now3 = none := by
  unfold cacheGet cacheSet
  rw [List.find?_cons_of_pos _ (by simp)]
  dsimp only
  rw [if_neg (by omega)]

/-- C8: when the first call for an ip misses the cache, a second call for
the same ip within the 600 second TTL returns the stored result unmodified,
leaves the cache unchanged and performs zero provider requests (so across
the two calls the providers run exactly once); a call after the TTL has
expired misses and performs the full set of provider requests again. -/
theorem claim_C8_cache_ttl (inp : IpInfoInputs) (c0 : IpCache) (now1 now2 now3 : ℤ)
    (h0 : cacheGet c0 inp.ip now1 = none)
    (h2 : now2 ≤ now1 + CACHE_TTL)
    (h3 : now1 + CACHE_TTL < now3) :
    getIpInfo inp (getIpInfo inp c0 now1).2.1 now2 =
      ((getIpInfo inp c0 now1).1, (getIpInfo inp c0 now1).2.1, 0)
    ∧ (getIpInfo inp c0 now1).2.2 = providersInvoked inp
    ∧ 1 ≤ providersInvoked inp
    ∧ (getIpInfo inp (getIpInfo inp c0 now1).2.1 now3).2.2 = providersInvoked inp
    ∧ (getIpInfo inp (getIpInfo inp c0 now1).2.1 now3).1 = getIpInfoCore inp := by
  have h1 : getIpInfo inp c0 now1 =
      (getIpInfoCore inp, cacheSet c0 inp.ip now1 (getIpInfoCore inp),
        providersInvoked inp) := by
    simp [getIpInfo, h0]
  rw [h1]
  refine ⟨?_, rfl, ?_, ?_, ?_⟩
  · simp [getIpInfo, cacheGet_set_hit h2]
  · unfold providersInvoked
    split_ifs <;> omega
  · simp [getIpInfo, cacheGet_set_expired h3]
  · simp [getIpInfo, cacheGet_set_expired h3]

/-- Witness for C8: empty cache, first call at 0, hit at 100, miss at 700. -/
theorem claim_C8_cache_ttl_witness : 1 ≤ providersInvoked inC8 :=
  (claim_C8_cache_ttl inC8 [] 0 100 700 rfl (by decide) (by decide)).2.2.1

/-- C10: whenever the primary ipapi.co lookup throws, the User-Agent and
WebRTC heuristics (which live inside the same try block) are not evaluated:
the returned uaScore and webrtcScore are 0 and neither heuristic reason is
present, for every value of the user-agent and x-webrtc-ip headers. -/
theorem claim_C10_heuristics_gated (inp : IpInfoInputs) (hip : inp.ipapi = none) :
    (getIpInfoCore inp).uaScore = 0 ∧ (getIpInfoCore inp).webrtcScore = 0
    ∧ "Suspicious User-Agent detected" ∉ (getIpInfoCore inp).reasons
    ∧ "WebRTC IP mismatch detected" ∉ (getIpInfoCore inp).reasons := by
  have hg : getIpInfoCore inp = finalizeResult inp
      (stage3 inp (stage2 inp (stage1 inp (initState (isPrivate (realIpOf inp)))))) := rfl
  rw [hg]
  simp only [finalizeResult]
  set st0 := initState (isPrivate (realIpOf inp)) with hst0
  have hnotin : ∀ s, s ∈ (stage3 inp (stage2 inp (stage1 inp st0))).reasons →
      s ∈ st0.reasons ∨ s = "ipapi.co failed" ∨ s = "ip-api.com failed"
      ∨ s = "Proxy/VPN/Hosting detected by ip-api.com"
      ∨ s = "ipgeolocation.io failed" ∨ s = "Proxy/VPN flag from ipgeolocation.io"
      ∨ s = "Cloud provider ASN/ISP (ipgeolocation.io)"
      ∨ s = "freeipapi.com failed" ∨ s = "Proxy/VPN flag from freeipapi.com"
      ∨ s = "Cloud provider ASN/ISP (freeipapi.com)" := by
    intro s hs
    rcases reasons_stage3_new inp _ s hs with h | h | h | h
    · rcases reasons_stage2_new inp _ s h with h2 | h2 | h2 | h2
      · rcases reasons_stage1_none inp st0 hip s h2 with h3 | h3 | h3 | h3 <;> tauto
      all_goals tauto
    all_goals tauto
  refine ⟨?_, ?_, ?_, ?_⟩
  · rw [(scores_stage3 inp _).1, (scores_stage2 inp _).1,
      (scores_stage1_none inp _ hip).1]
    rfl
  · rw [(scores_stage3 inp _).2, (scores_stage2 inp _).2,
      (scores_stage1_none inp _ hip).2]
    rfl
  · intro hmem
    rcases hnotin _ hmem with h | h | h | h | h | h | h | h | h | h
    · exact absurd (reasons_initState _ _ h) (by decide)
    all_goals exact absurd h (by decide)
  · intro hmem
    rcases hnotin _ hmem with h | h | h | h | h | h | h | h | h | h
    · exact absurd (reasons_initState _ _ h) (by decide)
    all_goals exact absurd h (by decide)

/-- Witness for C10 with a throwing primary provider and non-trivial
headers. -/
theorem claim_C10_heuristics_gated_witness : (getIpInfoCore inC10).uaScore = 0 :=
  (claim_C10_heuristics_gated inC10 rfl).1

end Somatic
